import Mathlib

/-!
Verification of the AP2 micropayment-channel core against its specification.

The development shallowly embeds the Python sources:
  src/ap2/types/payment_request.py    (PaymentCurrencyAmount)
  src/ap2/types/payment_channels.py   (PaymentChannel and friends)
  src/ap2/channels/channel_manager.py (ChannelManager)
  src/ap2/types/streaming_payments.py (StreamingPaymentSession)
  src/ap2/types/spending_rules.py     (SpendingRuleSet)
  src/ap2/types/session_auth.py       (SessionAuthorization)

Modelling conventions:
  - Python float monetary values are modelled as rationals.
  - Wall-clock timestamps (ISO 8601 strings in the source) are modelled as
    rational instants passed explicitly to each operation that reads the clock.
  - sha256 digests are modelled by their pre-image data (the digest is a fixed
    injective-in-practice function of that data, and every claim only compares
    hashes for equality).
  - uuid-generated identifiers are passed in as explicit arguments.
  - Python dictionaries are modelled as association lists whose keys are
    distinct; mutation is modelled by state passing.
-/

namespace AP2

/-- PaymentCurrencyAmount from payment_request.py: a currency code plus a
monetary value (a Python float, modelled as a rational). -/
structure PaymentCurrencyAmount where
  currency : String
  value : ℚ
deriving DecidableEq

/-- ChannelState enum from payment_channels.py. -/
inductive ChannelState
  | opening
  | active
  | closing
  | closed
  | disputed
  | expired
deriving DecidableEq

/-- ChannelParticipant from payment_channels.py. -/
structure ChannelParticipant where
  participant_id : String
  agent_did : Option String := none
  wallet_address : String
  role : String
  public_key : String
  initial_balance : PaymentCurrencyAmount
  current_balance : PaymentCurrencyAmount
deriving DecidableEq

/-- ChannelPolicy from payment_channels.py. -/
structure ChannelPolicy where
  max_transaction_amount : PaymentCurrencyAmount
  min_transaction_amount : PaymentCurrencyAmount
  dispute_timeout_seconds : ℤ := 86400
  max_pending_updates : ℤ := 1000
  settlement_threshold : PaymentCurrencyAmount
  fee_rate : ℚ := 1/1000
  auto_close_timeout : ℤ := 604800
deriving DecidableEq

/-- Model of a sha256 state digest: ChannelManager._calculate_state_hash hashes
the channel id together with each participant id and current balance value, so
the digest is modelled by that pre-image data. -/
abbrev StateHash := String × List (String × ℚ)

/-- ChannelManager._calculate_state_hash: digest of channel id and the list of
participant (id, current balance value) pairs. -/
def calculateStateHash (channel_id : String)
    (participants : List ChannelParticipant) : StateHash :=
  (channel_id, participants.map fun p => (p.participant_id, p.current_balance.value))

/-- Model of ChannelManager._sign_voucher: sha256 of
channel_id, from_participant, amount value and currency, modelled by that
pre-image data. -/
abbrev VoucherSignature := String × String × ℚ × String

/-- ChannelManager._sign_voucher. -/
def signVoucher (channel_id from_participant : String)
    (amount : PaymentCurrencyAmount) : VoucherSignature :=
  (channel_id, from_participant, amount.value, amount.currency)

/-- PaymentVoucher from payment_channels.py. -/
structure PaymentVoucher where
  voucher_id : String
  channel_id : String
  from_participant : String
  to_participant : String
  amount : PaymentCurrencyAmount
  nonce : ℕ
  cumulative_amount : PaymentCurrencyAmount
  timestamp : ℚ
  signature : VoucherSignature
  metadata : List (String × String)
deriving DecidableEq

/-- The settlement_info dictionary written by ChannelManager.close_channel. -/
structure SettlementInfo where
  final_balances : List (String × PaymentCurrencyAmount)
  closed_by : String
  close_reason : String
  closure_time : ℚ
deriving DecidableEq

/-- PaymentChannel from payment_channels.py (dispute_info and created_at are
not read by any operation verified here and are omitted). -/
structure PaymentChannel where
  channel_id : String
  participants : List ChannelParticipant
  state : ChannelState := .opening
  policy : ChannelPolicy
  total_capacity : PaymentCurrencyAmount
  current_state_hash : StateHash
  sequence_number : ℕ := 0
  expires_at : ℚ
  last_activity : ℚ
  settlement_info : Option SettlementInfo := none
deriving DecidableEq

/-- PaymentChannel.get_participant: first participant with the given id. -/
def PaymentChannel.get_participant (c : PaymentChannel)
    (participant_id : String) : Option ChannelParticipant :=
  c.participants.find? fun p => p.participant_id == participant_id

/-- PaymentChannel.is_expired at an explicit current time. -/
def PaymentChannel.is_expired (c : PaymentChannel) (current_time : ℚ) : Bool :=
  decide (current_time > c.expires_at)

/-- PaymentChannel.can_process_payment: the ordered validation checks, returning
the decision together with the reason string. -/
def PaymentChannel.can_process_payment (c : PaymentChannel) (current_time : ℚ)
    (from_id to_id : String) (amount : PaymentCurrencyAmount) : Bool × String :=
  if c.state ≠ ChannelState.active then
    (false, "Channel state is not active")
  else if c.is_expired current_time then
    (false, "Channel has expired")
  else
    match c.get_participant from_id, c.get_participant to_id with
    | none, _ => (false, "Payer not found in channel")
    | some _, none => (false, "Payee not found in channel")
    | some payer, some _ =>
      if amount.currency ≠ payer.current_balance.currency then
        (false, "Currency mismatch")
      else if payer.current_balance.value < amount.value then
        (false, "Insufficient balance")
      else if amount.value > c.policy.max_transaction_amount.value then
        (false, "Amount exceeds maximum transaction limit")
      else if amount.value < c.policy.min_transaction_amount.value then
        (false, "Amount below minimum transaction limit")
      else
        (true, "Payment can be processed")

/-- In-place mutation of the first participant with the given id (Python
mutates the object returned by get_participant, which is the first match in
the participants list); the update rewrites the current balance value. -/
def updateBalanceFirst (participant_id : String) (f : ℚ → ℚ) :
    List ChannelParticipant → List ChannelParticipant
  | [] => []
  | p :: ps =>
    if p.participant_id == participant_id then
      { p with current_balance := { p.current_balance with value := f p.current_balance.value } } :: ps
    else
      p :: updateBalanceFirst participant_id f ps

/-- Outcome of the channel-level body of ChannelManager.process_payment:
the result flags plus the (possibly updated) channel. -/
structure ChannelPaymentOutcome where
  success : Bool
  message : String
  voucher : Option PaymentVoucher := none
  channel : PaymentChannel
deriving DecidableEq

/-- Body of ChannelManager.process_payment once the channel has been looked
up: validate via can_process_payment; on success mint a voucher carrying
nonce = sequence_number + 1 and cumulative_amount = amount (the source sets
cumulative_amount to the single payment amount, with the comment that a real
implementation would track the cumulative total), debit the payer, credit the
payee, advance the sequence number and recompute the state hash; on failure
return the channel untouched. -/
def PaymentChannel.processPayment (c : PaymentChannel) (now : ℚ)
    (voucher_id from_participant to_participant : String)
    (amount : PaymentCurrencyAmount) (metadata : List (String × String)) :
    ChannelPaymentOutcome :=
  let check := c.can_process_payment now from_participant to_participant amount
  if check.1 then
    let voucher : PaymentVoucher :=
      { voucher_id := voucher_id
        channel_id := c.channel_id
        from_participant := from_participant
        to_participant := to_participant
        amount := amount
        nonce := c.sequence_number + 1
        cumulative_amount := amount
        timestamp := now
        signature := signVoucher c.channel_id from_participant amount
        metadata := metadata }
    let participants1 := updateBalanceFirst from_participant (fun v => v - amount.value) c.participants
    let participants2 := updateBalanceFirst to_participant (fun v => v + amount.value) participants1
    let updated : PaymentChannel :=
      { c with
        participants := participants2
        sequence_number := c.sequence_number + 1
        last_activity := now
        current_state_hash := calculateStateHash c.channel_id participants2 }
    { success := true
      message := "Payment processed successfully"
      voucher := some voucher
      channel := updated }
  else
    { success := false, message := check.2, channel := c }

/-- ChannelOperationResult from channel_manager.py; the data dictionary is
modelled by the optional voucher and settlement payloads it carries. -/
structure ChannelOperationResult where
  success : Bool
  channel_id : Option String := none
  message : String
  voucher : Option PaymentVoucher := none
  settlement : Option SettlementInfo := none
deriving DecidableEq

/-- ChannelManager state from channel_manager.py (pending_operations and
security_config are never read or written by the verified operations). -/
structure ChannelManager where
  manager_id : String
  agent_did : String
  active_channels : List (String × PaymentChannel) := []
  channel_history : List String := []
deriving DecidableEq

/-- Dictionary lookup self.active_channels.get(channel_id). -/
def ChannelManager.getChannel (m : ChannelManager) (channel_id : String) :
    Option PaymentChannel :=
  (m.active_channels.find? fun kv => kv.1 == channel_id).map Prod.snd

/-- In-place mutation of the channel stored under an existing key. -/
def ChannelManager.setChannel (m : ChannelManager) (channel_id : String)
    (c : PaymentChannel) : ChannelManager :=
  { m with
    active_channels := m.active_channels.map fun kv =>
      if kv.1 == channel_id then (kv.1, c) else kv }

/-- Dictionary deletion del self.active_channels[channel_id]. -/
def ChannelManager.removeChannel (m : ChannelManager) (channel_id : String) :
    ChannelManager :=
  { m with active_channels := m.active_channels.filter fun kv => kv.1 ≠ channel_id }

/-- ChannelOpenRequest from payment_channels.py. -/
structure ChannelOpenRequest where
  requesting_participant : ChannelParticipant
  target_participant : ChannelParticipant
  proposed_policy : ChannelPolicy
  duration_hours : ℕ := 168
  initial_deposit : PaymentCurrencyAmount
  purpose : String
deriving DecidableEq

/-- The channel value built by ChannelManager.open_channel: two participants,
state OPENING, total capacity equal to the sum of the participants INITIAL
balances, expiry now + duration, and the initial state hash. -/
def buildChannel (now : ℚ) (channel_id : String) (request : ChannelOpenRequest) :
    PaymentChannel :=
  let participants := [request.requesting_participant, request.target_participant]
  { channel_id := channel_id
    participants := participants
    state := .opening
    policy := request.proposed_policy
    total_capacity :=
      { currency := request.initial_deposit.currency
        value := (participants.map fun p => p.initial_balance.value).sum }
    current_state_hash := calculateStateHash channel_id participants
    sequence_number := 0
    expires_at := now + 3600 * request.duration_hours
    last_activity := now }

/-- ChannelManager.open_channel: reject identical requesting and target
participant ids, otherwise store the freshly built channel under the generated
channel id. -/
def ChannelManager.open_channel (m : ChannelManager) (now : ℚ)
    (channel_id : String) (request : ChannelOpenRequest) :
    ChannelOperationResult × ChannelManager :=
  if request.requesting_participant.participant_id
      == request.target_participant.participant_id then
    ({ success := false
       message := "Requesting and target participants cannot be the same" }, m)
  else
    let channel := buildChannel now channel_id request
    ({ success := true
       channel_id := some channel_id
       message := "Channel opened successfully" },
     { m with active_channels := m.active_channels ++ [(channel_id, channel)] })

/-- ChannelManager.activate_channel: only OPENING channels become ACTIVE. -/
def ChannelManager.activate_channel (m : ChannelManager) (now : ℚ)
    (channel_id : String) : ChannelOperationResult × ChannelManager :=
  match m.getChannel channel_id with
  | none => ({ success := false, message := "Channel not found" }, m)
  | some channel =>
    if channel.state ≠ ChannelState.opening then
      ({ success := false, message := "Channel is not in opening state" }, m)
    else
      ({ success := true
         channel_id := some channel_id
         message := "Channel activated successfully" },
       m.setChannel channel_id { channel with state := .active, last_activity := now })

/-- ChannelManager.process_payment: look the channel up, run the channel-level
payment body, and store the updated channel back on success. -/
def ChannelManager.process_payment (m : ChannelManager) (now : ℚ)
    (voucher_id channel_id from_participant to_participant : String)
    (amount : PaymentCurrencyAmount) (metadata : List (String × String)) :
    ChannelOperationResult × ChannelManager :=
  match m.getChannel channel_id with
  | none => ({ success := false, message := "Channel not found" }, m)
  | some channel =>
    let outcome := channel.processPayment now voucher_id from_participant
      to_participant amount metadata
    if outcome.success then
      ({ success := true
         channel_id := some channel_id
         message := outcome.message
         voucher := outcome.voucher },
       m.setChannel channel_id outcome.channel)
    else
      ({ success := false, message := outcome.message }, m)

/-- ChannelCloseRequest from payment_channels.py. -/
structure ChannelCloseRequest where
  channel_id : String
  requesting_participant : String
  final_balances : List (String × PaymentCurrencyAmount)
  reason : String := "normal_closure"
  force_close : Bool := false
  signature : String
deriving DecidableEq

/-- Python set equality of two id collections, as used by
ChannelManager._validate_final_balances. -/
def setEqStr (a b : List String) : Bool :=
  a.all (fun x => b.contains x) && b.all (fun x => a.contains x)

/-- ChannelManager._validate_final_balances: the proposed balance keys must
equal the participant id set and the proposed total must match the channel
capacity within 0.001. -/
def validateFinalBalances (channel : PaymentChannel)
    (final_balances : List (String × PaymentCurrencyAmount)) : Bool :=
  let participant_ids := channel.participants.map fun p => p.participant_id
  let final_balance_ids := final_balances.map Prod.fst
  if ¬ setEqStr participant_ids final_balance_ids then false
  else
    let total_final := (final_balances.map fun kv => kv.2.value).sum
    decide (|total_final - channel.total_capacity.value| < 1/1000)

/-- ChannelManager.close_channel: only ACTIVE or CLOSING channels may close;
validate the proposed final balances; on success record settlement info and,
exactly when force_close is set, move the channel id to history and delete it
from the active set (otherwise it stays, in state CLOSING). -/
def ChannelManager.close_channel (m : ChannelManager) (now : ℚ)
    (request : ChannelCloseRequest) : ChannelOperationResult × ChannelManager :=
  match m.getChannel request.channel_id with
  | none => ({ success := false, message := "Channel not found" }, m)
  | some channel =>
    if channel.state ≠ ChannelState.active ∧ channel.state ≠ ChannelState.closing then
      ({ success := false, message := "Channel cannot be closed in this state" }, m)
    else if ¬ validateFinalBalances channel request.final_balances then
      ({ success := false, message := "Final balances do not match channel state" }, m)
    else
      let settlement : SettlementInfo :=
        { final_balances := request.final_balances
          closed_by := request.requesting_participant
          close_reason := request.reason
          closure_time := now }
      if request.force_close then
        ({ success := true
           channel_id := some request.channel_id
           message := "Channel closed"
           settlement := some settlement },
         { (m.setChannel request.channel_id
              { channel with state := .closed, settlement_info := some settlement }).removeChannel
              request.channel_id with
           channel_history := m.channel_history ++ [request.channel_id] })
      else
        ({ success := true
           channel_id := some request.channel_id
           message := "Channel closing"
           settlement := some settlement },
         m.setChannel request.channel_id
           { channel with state := .closing, settlement_info := some settlement })

/-- One process_payment call in a run: the clock instant, the generated voucher
id, the endpoints and the amount. -/
structure PaymentRequestEvent where
  now : ℚ
  voucher_id : String
  from_participant : String
  to_participant : String
  amount : PaymentCurrencyAmount
deriving DecidableEq

/-- Run a sequence of process_payment calls against one channel, collecting
the vouchers of the successful calls (rejected calls leave the channel as is
and mint nothing). -/
def runPayments (c : PaymentChannel) :
    List PaymentRequestEvent → PaymentChannel × List PaymentVoucher
  | [] => (c, [])
  | e :: es =>
    let outcome := c.processPayment e.now e.voucher_id e.from_participant
      e.to_participant e.amount []
    let rest := runPayments outcome.channel es
    match outcome.voucher with
    | some v => (rest.1, v :: rest.2)
    | none => rest

/-- Sum of all participants current balance values of a channel. -/
def sumBalances (c : PaymentChannel) : ℚ :=
  (c.participants.map fun p => p.current_balance.value).sum

/-- PaymentRateType enum from streaming_payments.py. -/
inductive PaymentRateType
  | per_second
  | per_minute
  | per_hour
  | per_token
  | per_request
  | per_byte
  | per_compute_unit
  | flat_rate
  | tiered_rate
deriving DecidableEq

/-- StreamStatus enum from streaming_payments.py. -/
inductive StreamStatus
  | initializing
  | active
  | paused
  | completed
  | failed
  | cancelled
deriving DecidableEq

/-- One tier_thresholds dictionary entry: min_units defaults to 0, max_units
defaults to infinity (modelled by none), rate_per_unit defaults to the
rate_amount value; the defaults are applied where the source reads the
dictionary. -/
structure TierThreshold where
  min_units : Option ℚ := none
  max_units : Option ℚ := none
  rate_per_unit : Option ℚ := none
deriving DecidableEq

/-- PaymentRate from streaming_payments.py. -/
structure PaymentRate where
  rate_type : PaymentRateType
  rate_amount : PaymentCurrencyAmount
  minimum_charge : Option PaymentCurrencyAmount := none
  maximum_charge : Option PaymentCurrencyAmount := none
  billing_frequency_seconds : ℕ := 1
  unit_description : String
  tier_thresholds : Option (List TierThreshold) := none
deriving DecidableEq

/-- StreamingPaymentVoucher from streaming_payments.py. -/
structure StreamingPaymentVoucher where
  voucher_id : String
  stream_id : String
  channel_id : String
  sequence_number : ℕ
  increment_amount : PaymentCurrencyAmount
  cumulative_amount : PaymentCurrencyAmount
  units_consumed : ℚ
  cumulative_units : ℚ
  rate_applied : PaymentRate
  timestamp : ℚ
  signature : String
  metadata : List (String × String)
deriving DecidableEq

/-- StreamingPaymentPolicy from streaming_payments.py. -/
structure StreamingPaymentPolicy where
  max_stream_duration_seconds : ℕ := 3600
  checkpoint_frequency_seconds : ℕ := 60
  auto_pause_threshold : PaymentCurrencyAmount
  max_cumulative_amount : PaymentCurrencyAmount
  rate_adjustment_allowed : Bool := false
  dispute_resolution_timeout : ℕ := 300
deriving DecidableEq

/-- StreamingPaymentSession from streaming_payments.py (last_checkpoint is
not read by any operation verified here and is omitted; metadata values are
the strings the lifecycle methods write). -/
structure StreamingPaymentSession where
  stream_id : String
  channel_id : String
  payer_id : String
  payee_id : String
  service_description : String
  rate : PaymentRate
  policy : StreamingPaymentPolicy
  status : StreamStatus := .initializing
  start_time : ℚ
  end_time : Option ℚ := none
  current_sequence : ℕ := 0
  cumulative_amount : PaymentCurrencyAmount
  cumulative_units : ℚ := 0
  vouchers : List StreamingPaymentVoucher := []
  metadata : List (String × String) := []
deriving DecidableEq

/-- StreamingPaymentSession._calculate_tiered_payment: with no tiers configured
(None or an empty list, both falsy in Python) fall back to the simple rate;
otherwise, for each tier, charge the portion of the consumed increment lying in
that tier at the tier rate, computed as the difference of the clamped old and
new cumulative totals. -/
def StreamingPaymentSession.calculate_tiered_payment
    (s : StreamingPaymentSession) (units_consumed : ℚ) : PaymentCurrencyAmount :=
  match s.rate.tier_thresholds with
  | none =>
    { currency := s.rate.rate_amount.currency
      value := s.rate.rate_amount.value * units_consumed }
  | some tiers =>
    if tiers.isEmpty then
      { currency := s.rate.rate_amount.currency
        value := s.rate.rate_amount.value * units_consumed }
    else
      let new_total_units := s.cumulative_units + units_consumed
      let old_total_units := s.cumulative_units
      let total_cost := (tiers.map fun tier =>
        let tier_min := tier.min_units.getD 0
        let tier_rate := tier.rate_per_unit.getD s.rate.rate_amount.value
        let old_units_in_tier := max 0
          ((match tier.max_units with
            | none => old_total_units
            | some tier_max => min old_total_units tier_max) - tier_min)
        let new_units_in_tier := max 0
          ((match tier.max_units with
            | none => new_total_units
            | some tier_max => min new_total_units tier_max) - tier_min)
        let increment_units_in_tier := new_units_in_tier - old_units_in_tier
        if increment_units_in_tier > 0 then increment_units_in_tier * tier_rate
        else 0).sum
      { currency := s.rate.rate_amount.currency, value := total_cost }

/-- StreamingPaymentSession.calculate_next_payment: FLAT_RATE charges the full
amount once (sequence 0) and zero afterwards; the seven per-unit rate types
charge rate times units; TIERED_RATE dispatches to the tiered calculation. -/
def StreamingPaymentSession.calculate_next_payment
    (s : StreamingPaymentSession) (units_consumed : ℚ) : PaymentCurrencyAmount :=
  match s.rate.rate_type with
  | .flat_rate =>
    if s.current_sequence = 0 then s.rate.rate_amount
    else { currency := s.rate.rate_amount.currency, value := 0 }
  | .tiered_rate => s.calculate_tiered_payment units_consumed
  | _ =>
    { currency := s.rate.rate_amount.currency
      value := s.rate.rate_amount.value * units_consumed }

/-- Python dictionary assignment d[k] = v on an association list. -/
def metaSet (k v : String) : List (String × String) → List (String × String)
  | [] => [(k, v)]
  | kv :: rest => if kv.1 == k then (k, v) :: rest else kv :: metaSet k v rest

/-- StreamingPaymentSession.add_voucher: compute the increment, extend the
cumulative totals, append the voucher and advance the sequence number.  The
session status is not touched. -/
def StreamingPaymentSession.add_voucher (s : StreamingPaymentSession)
    (units_consumed : ℚ) (now : ℚ) (metadata : List (String × String)) :
    StreamingPaymentVoucher × StreamingPaymentSession :=
  let increment_amount := s.calculate_next_payment units_consumed
  let new_cumulative_amount : PaymentCurrencyAmount :=
    { currency := s.cumulative_amount.currency
      value := s.cumulative_amount.value + increment_amount.value }
  let new_cumulative_units := s.cumulative_units + units_consumed
  let voucher : StreamingPaymentVoucher :=
    { voucher_id := s.stream_id ++ "_" ++ toString (s.current_sequence + 1)
      stream_id := s.stream_id
      channel_id := s.channel_id
      sequence_number := s.current_sequence + 1
      increment_amount := increment_amount
      cumulative_amount := new_cumulative_amount
      units_consumed := units_consumed
      cumulative_units := new_cumulative_units
      rate_applied := s.rate
      timestamp := now
      signature := "placeholder_signature"
      metadata := metadata }
  (voucher,
   { s with
     vouchers := s.vouchers ++ [voucher]
     current_sequence := s.current_sequence + 1
     cumulative_amount := new_cumulative_amount
     cumulative_units := new_cumulative_units })

/-- StreamingPaymentSession.pause_stream: unconditionally set PAUSED and record
the reason and instant in the metadata. -/
def StreamingPaymentSession.pause_stream (s : StreamingPaymentSession)
    (reason paused_at : String) : StreamingPaymentSession :=
  { s with
    status := .paused
    metadata := metaSet "paused_at" paused_at (metaSet "pause_reason" reason s.metadata) }

/-- StreamingPaymentSession.resume_stream: only a PAUSED session becomes
ACTIVE; any other status is left untouched. -/
def StreamingPaymentSession.resume_stream (s : StreamingPaymentSession)
    (resumed_at : String) : StreamingPaymentSession :=
  if s.status = StreamStatus.paused then
    { s with status := .active, metadata := metaSet "resumed_at" resumed_at s.metadata }
  else s

/-- StreamingPaymentSession.complete_stream: unconditionally set COMPLETED and
record the end time. -/
def StreamingPaymentSession.complete_stream (s : StreamingPaymentSession)
    (now : ℚ) : StreamingPaymentSession :=
  { s with status := .completed, end_time := some now }

/-- ConstraintOperator enum from spending_rules.py. -/
inductive ConstraintOperator
  | lt
  | lte
  | gt
  | gte
  | eq
  | ne
  | opIn
  | opNotIn
  | opMatches
deriving DecidableEq

/-- The allow or deny direction of a merchant or category constraint. -/
inductive ConstraintType
  | allow
  | deny
deriving DecidableEq

/-- The merchant id matching strategy of a MerchantConstraint. -/
inductive MerchantMatchType
  | exact
  | prefixMatch
  | regex
deriving DecidableEq

/-- Model of a Python datetime as read by TimeConstraint.evaluate: the instant
on the timeline plus its hour of day and weekday. -/
structure TransactionTime where
  t : ℚ
  hour : ℕ
  weekday : ℕ
deriving DecidableEq

/-- The transaction_context dictionary: every key the rule evaluators read,
with the default used when the key is absent.  The timestamp default (the
current time in the source) is supplied by the caller. -/
structure TransactionContext where
  amount : Option PaymentCurrencyAmount := none
  merchant_id : Option String := none
  categories : List String := []
  historical_amount_in_window : ℚ := 0
  merchant_transaction_count_in_window : ℕ := 0
  total_transaction_count_in_window : ℕ := 0
  timestamp : TransactionTime
deriving DecidableEq

/-- The fields shared by every SpendingRule subclass. -/
structure SpendingRuleCore where
  rule_id : String
  description : String := ""
  priority : ℕ := 100
  enabled : Bool := true
deriving DecidableEq

/-- The constraint payload of each SpendingRule subclass from
spending_rules.py. -/
inductive SpendingRuleBody
  | amountC (limit_amount : PaymentCurrencyAmount) (operator : ConstraintOperator)
      (time_window_hours : Option ℕ) (include_pending : Bool)
  | timeC (valid_from valid_until : Option ℚ) (allowed_hours : Option (List ℕ))
      (allowed_days_of_week : Option (List ℕ))
  | merchantC (merchant_ids : List String) (constraint_type : ConstraintType)
      (match_type : MerchantMatchType)
  | categoryC (categories : List String) (constraint_type : ConstraintType)
  | frequencyC (max_transactions : ℕ) (time_window_hours : ℕ)
      (merchant_specific : Bool)
deriving DecidableEq

/-- A concrete spending rule: common fields plus the subclass payload. -/
structure SpendingRule where
  core : SpendingRuleCore
  body : SpendingRuleBody
deriving DecidableEq

/-- AmountConstraint._compare_amounts: the six numeric operators; the
membership and regex operators fall through to False. -/
def compareAmounts (operator : ConstraintOperator)
    (transaction_value limit_value : ℚ) : Bool :=
  match operator with
  | .lt => decide (transaction_value < limit_value)
  | .lte => decide (transaction_value ≤ limit_value)
  | .gt => decide (transaction_value > limit_value)
  | .gte => decide (transaction_value ≥ limit_value)
  | .eq => decide (|transaction_value - limit_value| < 1/1000)
  | .ne => decide (|transaction_value - limit_value| ≥ 1/1000)
  | _ => false

/-- MerchantConstraint._is_merchant_match.  Regex matching (re.match with the
configured pattern) is abstracted by the regexMatch oracle taking the pattern
and the merchant id. -/
def isMerchantMatch (regexMatch : String → String → Bool)
    (merchant_ids : List String) (match_type : MerchantMatchType)
    (merchant_id : String) : Bool :=
  merchant_ids.any fun allowed_id =>
    match match_type with
    | .exact => merchant_id == allowed_id
    | .prefixMatch => allowed_id.isPrefixOf merchant_id
    | .regex => regexMatch allowed_id merchant_id

/-- The evaluate method of each SpendingRule subclass.  A missing amount or a
missing or empty merchant id is falsy in Python and fails the rule. -/
def SpendingRule.evaluate (r : SpendingRule)
    (regexMatch : String → String → Bool) (ctx : TransactionContext) : Bool :=
  match r.body with
  | .amountC limit_amount operator time_window_hours _ =>
    match ctx.amount with
    | none => false
    | some transaction_amount =>
      if transaction_amount.currency ≠ limit_amount.currency then false
      else
        match time_window_hours with
        | none => compareAmounts operator transaction_amount.value limit_amount.value
        | some _ => compareAmounts operator
            (ctx.historical_amount_in_window + transaction_amount.value)
            limit_amount.value
  | .timeC valid_from valid_until allowed_hours allowed_days_of_week =>
    (match valid_from with
     | none => true
     | some vf => !decide (ctx.timestamp.t < vf)) &&
    (match valid_until with
     | none => true
     | some vu => !decide (ctx.timestamp.t > vu)) &&
    (match allowed_hours with
     | none => true
     | some hs => hs.contains ctx.timestamp.hour) &&
    (match allowed_days_of_week with
     | none => true
     | some ds => ds.contains ctx.timestamp.weekday)
  | .merchantC merchant_ids constraint_type match_type =>
    match ctx.merchant_id with
    | none => false
    | some merchant_id =>
      if merchant_id == "" then false
      else
        let is_match := isMerchantMatch regexMatch merchant_ids match_type merchant_id
        match constraint_type with
        | .allow => is_match
        | .deny => !is_match
  | .categoryC categories constraint_type =>
    if ctx.categories.isEmpty then constraint_type == ConstraintType.deny
    else
      let has_matching_category := ctx.categories.any fun c => categories.contains c
      match constraint_type with
      | .allow => has_matching_category
      | .deny => !has_matching_category
  | .frequencyC max_transactions _ merchant_specific =>
    let transaction_count :=
      if merchant_specific then ctx.merchant_transaction_count_in_window
      else ctx.total_transaction_count_in_window
    decide (transaction_count < max_transactions)

/-- The evaluation_mode field of a SpendingRuleSet. -/
inductive EvaluationMode
  | all
  | any
deriving DecidableEq

/-- SpendingRuleSet from spending_rules.py. -/
structure SpendingRuleSet where
  rules : List SpendingRule := []
  evaluation_mode : EvaluationMode := .all
deriving DecidableEq

/-- One entry of the rule_results list built by evaluate_transaction. -/
structure RuleEvalResult where
  rule_id : String
  passed : Bool
deriving DecidableEq

/-- The dictionary returned by SpendingRuleSet.evaluate_transaction. -/
structure RuleSetEvalOutcome where
  allowed : Bool
  rule_results : List RuleEvalResult
  message : String
deriving DecidableEq

/-- SpendingRuleSet.evaluate_transaction: an empty rule list short-circuits to
allowed; otherwise the rules are stably sorted by priority (Python sorted is a
stable sort, modelled by insertion sort), each ENABLED rule is evaluated, and
the results are aggregated with all or any according to evaluation_mode. -/
def SpendingRuleSet.evaluate_transaction (rs : SpendingRuleSet)
    (regexMatch : String → String → Bool) (ctx : TransactionContext) :
    RuleSetEvalOutcome :=
  if rs.rules.isEmpty then
    { allowed := true, rule_results := [], message := "No rules defined" }
  else
    let sorted_rules := rs.rules.insertionSort
      fun a b => a.core.priority ≤ b.core.priority
    let rule_results := (sorted_rules.filter fun r => r.core.enabled).map fun r =>
      { rule_id := r.core.rule_id, passed := r.evaluate regexMatch ctx : RuleEvalResult }
    match rs.evaluation_mode with
    | .all =>
      { allowed := rule_results.all fun res => res.passed
        rule_results := rule_results
        message := "aggregated with all" }
    | .any =>
      { allowed := rule_results.any fun res => res.passed
        rule_results := rule_results
        message := "aggregated with any" }

/-- SpendingRuleSet.add_rule: append the rule, nothing else. -/
def SpendingRuleSet.add_rule (rs : SpendingRuleSet) (rule : SpendingRule) :
    SpendingRuleSet :=
  { rs with rules := rs.rules ++ [rule] }

/-- SessionAuthType enum from session_auth.py. -/
inductive SessionAuthType
  | ephemeral_key
  | delegated_signature
  | smart_contract
  | hardware_attestation
deriving DecidableEq

/-- SessionStatus enum from session_auth.py. -/
inductive SessionStatus
  | active
  | expired
  | revoked
  | suspended
deriving DecidableEq

/-- SessionIntent from session_auth.py. -/
structure SessionIntent where
  intent_id : String
  action : String
  max_amount : Option PaymentCurrencyAmount := none
  valid_until : ℚ
  merchant_restrictions : Option (List String) := none
  category_restrictions : Option (List String) := none
deriving DecidableEq

/-- SessionCredential from session_auth.py. -/
structure SessionCredential where
  credential_id : String
  public_key : String
  signature_algorithm : String := "ES256"
  key_derivation_method : String := "random"
deriving DecidableEq

/-- SessionAuthorization from session_auth.py. -/
structure SessionAuthorization where
  session_id : String
  agent_did : String
  user_wallet_address : String
  auth_type : SessionAuthType
  credential : SessionCredential
  intents : List SessionIntent
  session_expiry : ℚ
  status : SessionStatus := .active
  nonce : ℕ := 0
deriving DecidableEq

/-- SessionAuthorization.is_valid at an explicit current time: ACTIVE status
and not past the session expiry. -/
def SessionAuthorization.is_valid (s : SessionAuthorization)
    (current_time : ℚ) : Bool :=
  if s.status ≠ SessionStatus.active then false
  else if current_time > s.session_expiry then false
  else true

/-- SessionAuthorization.has_intent_for_action: the session must be valid, and
some intent must match the action, be unexpired, and, only when both the
queried amount and the intent limit are present, match the currency and not
exceed the limit. -/
def SessionAuthorization.has_intent_for_action (s : SessionAuthorization)
    (action : String) (amount : Option PaymentCurrencyAmount) (now : ℚ) : Bool :=
  if ¬ s.is_valid now then false
  else
    s.intents.any fun intent =>
      if intent.action ≠ action then false
      else if now > intent.valid_until then false
      else
        match amount, intent.max_amount with
        | some a, some max_amount =>
          if a.currency ≠ max_amount.currency then false
          else if a.value > max_amount.value then false
          else true
        | _, _ => true

/-! Helper lemmas about the channel operations. -/

/-- updateBalanceFirst only rewrites a balance value: the participant ids are
untouched. -/
theorem updateBalanceFirst_ids (pid : String) (f : ℚ → ℚ) :
    ∀ l : List ChannelParticipant,
      (updateBalanceFirst pid f l).map (fun q => q.participant_id)
        = l.map fun q => q.participant_id := by
  intro l
  induction l with
  | nil => rfl
  | cons p ps ih =>
    by_cases h : p.participant_id == pid
    · simp [updateBalanceFirst, h]
    · simp [updateBalanceFirst, h, ih]

/-- Updating the first participant with a given id changes the balance total by
exactly the rewrite applied to that participant. -/
theorem updateBalanceFirst_sum (pid : String) (f : ℚ → ℚ) :
    ∀ (l : List ChannelParticipant) (p : ChannelParticipant),
      l.find? (fun q => q.participant_id == pid) = some p →
      ((updateBalanceFirst pid f l).map fun q => q.current_balance.value).sum
        = (l.map fun q => q.current_balance.value).sum
          - p.current_balance.value + f p.current_balance.value := by
  intro l
  induction l with
  | nil => intro p h; simp at h
  | cons q qs ih =>
    intro p h
    cases hq : q.participant_id == pid with
    | true =>
      simp only [List.find?_cons, hq, if_true] at h
      injection h with h
      subst h
      simp [updateBalanceFirst, hq]
      ring
    | false =>
      simp only [List.find?_cons, hq, Bool.false_eq_true, if_false] at h
      simp only [updateBalanceFirst, hq, Bool.false_eq_true, if_false,
        List.map_cons, List.sum_cons]
      rw [ih p h]
      ring

/-- A participant id that can be found before updateBalanceFirst can still be
found afterwards. -/
theorem updateBalanceFirst_find_isSome (pid pid2 : String) (f : ℚ → ℚ)
    (l : List ChannelParticipant)
    (h : (l.find? fun q => q.participant_id == pid2).isSome) :
    ((updateBalanceFirst pid f l).find? fun q => q.participant_id == pid2).isSome := by
  rw [List.find?_isSome] at h ⊢
  obtain ⟨x, hx, hpx⟩ := h
  have hmap : pid2 ∈ (updateBalanceFirst pid f l).map fun q => q.participant_id := by
    rw [updateBalanceFirst_ids]
    exact List.mem_map.mpr ⟨x, hx, by simpa using hpx⟩
  obtain ⟨y, hy, hpy⟩ := List.mem_map.mp hmap
  exact ⟨y, hy, by simpa using hpy⟩

/-- A successful can_process_payment check implies both endpoints were found in
the channel. -/
theorem can_process_payment_found (c : PaymentChannel) (now : ℚ)
    (from_id to_id : String) (amount : PaymentCurrencyAmount)
    (h : (c.can_process_payment now from_id to_id amount).1 = true) :
    (c.get_participant from_id).isSome ∧ (c.get_participant to_id).isSome := by
  unfold PaymentChannel.can_process_payment at h
  split at h
  · simp at h
  · split at h
    · simp at h
    · rcases hf : c.get_participant from_id with _ | payer
      · rw [hf] at h; simp at h
      · rcases ht : c.get_participant to_id with _ | payee
        · rw [hf, ht] at h; simp at h
        · simp [hf, ht]

/-- A successful payment conserves the sum of participant balances: the payer
is debited and the payee credited by the same amount (a rejected payment
leaves the channel untouched). -/
theorem processPayment_sumBalances (c : PaymentChannel) (now : ℚ)
    (voucher_id from_participant to_participant : String)
    (amount : PaymentCurrencyAmount) (metadata : List (String × String)) :
    sumBalances (c.processPayment now voucher_id from_participant to_participant
      amount metadata).channel = sumBalances c := by
  by_cases h : (c.can_process_payment now from_participant to_participant amount).1 = true
  · obtain ⟨hf, ht⟩ := can_process_payment_found c now from_participant to_participant amount h
    rw [Option.isSome_iff_exists] at hf
    obtain ⟨payer, hpayer⟩ := hf
    have ht1 : ((updateBalanceFirst from_participant (fun v => v - amount.value)
        c.participants).find? fun q => q.participant_id == to_participant).isSome :=
      updateBalanceFirst_find_isSome _ _ _ _ ht
    rw [Option.isSome_iff_exists] at ht1
    obtain ⟨payee, hpayee⟩ := ht1
    unfold PaymentChannel.processPayment
    rw [if_pos h]
    unfold sumBalances
    simp only
    rw [updateBalanceFirst_sum to_participant (fun v => v + amount.value) _ payee hpayee,
      updateBalanceFirst_sum from_participant (fun v => v - amount.value) _ payer hpayer]
    ring
  · unfold PaymentChannel.processPayment
    rw [if_neg h]

/-- A rejected channel-level payment changes nothing and mints nothing; a
successful one advances the sequence number by exactly one and mints the
voucher with nonce equal to the new sequence number. -/
theorem processPayment_step (c : PaymentChannel) (now : ℚ)
    (voucher_id from_participant to_participant : String)
    (amount : PaymentCurrencyAmount) (metadata : List (String × String)) :
    ((c.processPayment now voucher_id from_participant to_participant amount
        metadata).success = false →
      (c.processPayment now voucher_id from_participant to_participant amount
        metadata).channel = c ∧
      (c.processPayment now voucher_id from_participant to_participant amount
        metadata).voucher = none) ∧
    ((c.processPayment now voucher_id from_participant to_participant amount
        metadata).success = true →
      (c.processPayment now voucher_id from_participant to_participant amount
        metadata).channel.sequence_number = c.sequence_number + 1 ∧
      ∃ v, (c.processPayment now voucher_id from_participant to_participant amount
        metadata).voucher = some v ∧ v.nonce = c.sequence_number + 1) := by
  unfold PaymentChannel.processPayment
  by_cases h : (c.can_process_payment now from_participant to_participant amount).1 = true
  · rw [if_pos h]
    refine ⟨fun hfail => by simp at hfail, fun _ => ⟨rfl, ⟨_, rfl, rfl⟩⟩⟩
  · rw [if_neg h]
    exact ⟨fun _ => ⟨rfl, rfl⟩, fun hsucc => by simp at hsucc⟩

/-- Any run of payments conserves the sum of participant balances. -/
theorem runPayments_sumBalances :
    ∀ (events : List PaymentRequestEvent) (c : PaymentChannel),
      sumBalances (runPayments c events).1 = sumBalances c := by
  intro events
  induction events with
  | nil => intro c; rfl
  | cons e es ih =>
    intro c
    unfold runPayments
    rcases hv : (c.processPayment e.now e.voucher_id e.from_participant
        e.to_participant e.amount []).voucher with _ | v
    · simp only [hv]
      rw [ih, processPayment_sumBalances]
    · simp only [hv]
      rw [ih, processPayment_sumBalances]

/-- The vouchers collected by a run of payments carry consecutive nonces
starting one above the initial sequence number. -/
theorem runPayments_nonces :
    ∀ (events : List PaymentRequestEvent) (c : PaymentChannel),
      ((runPayments c events).2.map fun v => v.nonce)
        = List.range' (c.sequence_number + 1) (runPayments c events).2.length := by
  intro events
  induction events with
  | nil => intro c; rfl
  | cons e es ih =>
    intro c
    have hstep := processPayment_step c e.now e.voucher_id e.from_participant
      e.to_participant e.amount []
    unfold runPayments
    by_cases h : (c.processPayment e.now e.voucher_id e.from_participant
        e.to_participant e.amount []).success = true
    · obtain ⟨hseq, v, hv, hnonce⟩ := hstep.2 h
      simp only [hv, List.map_cons, List.length_cons, List.range'_succ, hnonce]
      rw [ih, hseq]
    · obtain ⟨hchan, hv⟩ := hstep.1 (by simpa using h)
      simp only [hv, hchan]
      exact ih c

/-- Appending a fresh entry makes it findable when no earlier entry matches. -/
theorem find?_append_of_none {α : Type} (p : α → Bool) (l : List α) (x : α)
    (hl : l.find? p = none) (hx : p x = true) : (l ++ [x]).find? p = some x := by
  induction l with
  | nil => simp [List.find?_cons, hx]
  | cons a as ih =>
    cases ha : p a with
    | true => simp [List.find?_cons, ha] at hl
    | false =>
      simp only [List.find?_cons, ha, Bool.false_eq_true, if_false] at hl
      simpa [List.find?_cons, ha] using ih hl

/-- Looking up the channel id just stored by open_channel. -/
theorem getChannel_open_fresh (m : ChannelManager) (cid : String)
    (ch : PaymentChannel) (hfresh : m.getChannel cid = none) :
    ChannelManager.getChannel
      { m with active_channels := m.active_channels ++ [(cid, ch)] } cid = some ch := by
  unfold ChannelManager.getChannel at hfresh ⊢
  have hnone : m.active_channels.find? (fun kv => kv.1 == cid) = none := by
    rcases h : m.active_channels.find? fun kv => kv.1 == cid with _ | kv
    · exact h
    · rw [h] at hfresh; simp at hfresh
  rw [find?_append_of_none _ _ (cid, ch) hnone (by simp)]
  rfl

/-- Rewriting the entry under a present key makes it the lookup result. -/
theorem find?_set_assoc (cid : String) (c : PaymentChannel) :
    ∀ l : List (String × PaymentChannel),
      (l.find? fun kv => kv.1 == cid).isSome →
      ((l.map fun kv => if kv.1 == cid then (kv.1, c) else kv).find?
          fun kv => kv.1 == cid).map Prod.snd = some c := by
  intro l
  induction l with
  | nil => intro h; simp at h
  | cons kv kvs ih =>
    intro h
    cases hkv : kv.1 == cid with
    | true =>
      simp only [List.map_cons, List.find?_cons, hkv, if_true]
      simp [hkv]
    | false =>
      have h2 : (kvs.find? fun kv => kv.1 == cid).isSome := by
        simpa [List.find?_cons, hkv] using h
      simp only [List.map_cons, List.find?_cons, hkv, Bool.false_eq_true, if_false]
      simpa [hkv] using ih h2

/-- Storing a channel under a present key makes it the lookup result. -/
theorem getChannel_setChannel_self (m : ChannelManager) (cid : String)
    (c : PaymentChannel) (h : (m.getChannel cid).isSome) :
    (m.setChannel cid c).getChannel cid = some c := by
  unfold ChannelManager.getChannel at h
  unfold ChannelManager.getChannel ChannelManager.setChannel
  exact find?_set_assoc cid c m.active_channels (by
    rcases hf : m.active_channels.find? fun kv => kv.1 == cid with _ | kv
    · rw [hf] at h; simp at h
    · simp [hf])

/-- Filtering an id out of an association list makes its lookup fail. -/
theorem find?_filter_ne (cid : String) :
    ∀ l : List (String × PaymentChannel),
      ((l.filter fun kv => kv.1 ≠ cid).find? fun kv => kv.1 == cid) = none := by
  intro l
  induction l with
  | nil => rfl
  | cons kv kvs ih =>
    by_cases h : kv.1 = cid
    · simp [List.filter_cons, h, ih]
    · have hb : (kv.1 == cid) = false := by simpa using h
      simp [List.filter_cons, h, List.find?_cons, hb, ih]

/-- Deleting a channel id removes it from the lookup. -/
theorem getChannel_removeChannel_self (m : ChannelManager) (cid : String) :
    (m.removeChannel cid).getChannel cid = none := by
  unfold ChannelManager.getChannel ChannelManager.removeChannel
  simp [find?_filter_ne]

/-! Concrete fixtures used by witnesses and counterexamples. -/

/-- A permissive test policy in USD. -/
def testPolicy : ChannelPolicy :=
  { max_transaction_amount := ⟨"USD", 1000⟩
    min_transaction_amount := ⟨"USD", 0⟩
    settlement_threshold := ⟨"USD", 10⟩ }

/-- Participant A holding 50 USD. -/
def participantA : ChannelParticipant :=
  { participant_id := "A", wallet_address := "wa", role := "payer",
    public_key := "pkA", initial_balance := ⟨"USD", 50⟩,
    current_balance := ⟨"USD", 50⟩ }

/-- Participant B holding 0 USD. -/
def participantB : ChannelParticipant :=
  { participant_id := "B", wallet_address := "wb", role := "payee",
    public_key := "pkB", initial_balance := ⟨"USD", 0⟩,
    current_balance := ⟨"USD", 0⟩ }

/-- Participant A with an initial balance of 100 USD but a current balance
of 0 USD, as open_channel accepts. -/
def participantA0 : ChannelParticipant :=
  { participant_id := "A", wallet_address := "wa", role := "payer",
    public_key := "pkA", initial_balance := ⟨"USD", 100⟩,
    current_balance := ⟨"USD", 0⟩ }

/-- An ACTIVE test channel between A and B with capacity 50 USD. -/
def testChannel : PaymentChannel :=
  { channel_id := "ch1"
    participants := [participantA, participantB]
    state := .active
    policy := testPolicy
    total_capacity := ⟨"USD", 50⟩
    current_state_hash := calculateStateHash "ch1" [participantA, participantB]
    sequence_number := 0
    expires_at := 100
    last_activity := 0 }

/-- A manager with no channels. -/
def emptyManager : ChannelManager := { manager_id := "mgr", agent_did := "did:agent" }

/-- An open request whose participants hold current balances equal to their
initial balances. -/
def goodRequest : ChannelOpenRequest :=
  { requesting_participant := participantA
    target_participant := participantB
    proposed_policy := testPolicy
    initial_deposit := ⟨"USD", 50⟩
    purpose := "inference" }

/-- An open request whose requesting participant reports an initial balance of
100 USD but a current balance of 0 USD. -/
def mismatchRequest : ChannelOpenRequest :=
  { requesting_participant := participantA0
    target_participant := participantB
    proposed_policy := testPolicy
    initial_deposit := ⟨"USD", 100⟩
    purpose := "inference" }

/-- The channel built from goodRequest, after activation. -/
def conservedChannel : PaymentChannel :=
  { buildChannel 0 "ch1" goodRequest with state := ChannelState.active, last_activity := 0 }

/-! Claim theorems. -/

/-- C1 (amended): for every channel created by open_channel from a request in
which each participant's current balance equals their initial balance, the sum
of participant current balances equals total_capacity.value after the channel
is activated and any finite sequence of process_payment calls is run: every
successful payment debits the payer and credits the payee by the same amount,
and rejected payments change nothing. -/
theorem channel_balance_conservation
    (m : ChannelManager) (now now2 : ℚ) (cid : String) (req : ChannelOpenRequest)
    (hfresh : m.getChannel cid = none)
    (hne : req.requesting_participant.participant_id
      ≠ req.target_participant.participant_id)
    (hreq : req.requesting_participant.current_balance.value
      = req.requesting_participant.initial_balance.value)
    (htgt : req.target_participant.current_balance.value
      = req.target_participant.initial_balance.value)
    (c : PaymentChannel)
    (hc : ((m.open_channel now cid req).2.activate_channel now2 cid).2.getChannel cid
      = some c)
    (events : List PaymentRequestEvent) :
    sumBalances (runPayments c events).1 = c.total_capacity.value := by
  have h1 : (m.open_channel now cid req).2.getChannel cid
      = some (buildChannel now cid req) := by
    unfold ChannelManager.open_channel
    rw [if_neg (by simpa using hne)]
    exact getChannel_open_fresh m cid _ hfresh
  have h2 : ((m.open_channel now cid req).2.activate_channel now2 cid).2.getChannel cid
      = some { buildChannel now cid req with
               state := ChannelState.active, last_activity := now2 } := by
    unfold ChannelManager.activate_channel
    rw [h1]
    simp only
    rw [if_neg (by simp [buildChannel])]
    exact getChannel_setChannel_self _ cid _ (by simp [h1])
  rw [h2] at hc
  have hceq : c = { buildChannel now cid req with
      state := ChannelState.active, last_activity := now2 } := by
    injection hc with hc
    exact hc.symm
  subst hceq
  rw [runPayments_sumBalances]
  simp [sumBalances, buildChannel, hreq, htgt]

/-- C1 witness: a concrete conserving run from a freshly opened channel. -/
theorem channel_balance_conservation_witness :
    emptyManager.getChannel "ch1" = none ∧
    sumBalances (runPayments conservedChannel
      [⟨0, "v1", "A", "B", ⟨"USD", 10⟩⟩]).1 = conservedChannel.total_capacity.value :=
  ⟨rfl,
   channel_balance_conservation emptyManager 0 0 "ch1" goodRequest rfl
     (by decide) rfl rfl conservedChannel rfl
     [⟨0, "v1", "A", "B", ⟨"USD", 10⟩⟩]⟩

/-- C1 counterexample: open_channel accepts a request whose requesting
participant reports initial balance 100 but current balance 0; the stored
channel has capacity 100 while the participant current balances sum to 0, so
the claimed invariant fails already for the empty payment sequence. -/
theorem channel_balance_conservation_counterexample :
    (((emptyManager.open_channel 0 "chX" mismatchRequest).2.getChannel "chX").map
      fun c => (sumBalances (runPayments c []).1, c.total_capacity.value))
      = some ((0 : ℚ), (100 : ℚ)) ∧ (0 : ℚ) ≠ 100 := by
  constructor
  · simp [ChannelManager.open_channel, ChannelManager.getChannel, emptyManager,
      mismatchRequest, participantA0, participantB, testPolicy, buildChannel,
      runPayments, sumBalances, List.find?]
  · norm_num

/-- C2: a process_payment call that reports failure leaves the manager state
(hence every channel's balances, sequence number and state hash) unchanged and
mints no voucher. -/
theorem process_payment_rejection_atomic
    (m : ChannelManager) (now : ℚ)
    (voucher_id channel_id from_participant to_participant : String)
    (amount : PaymentCurrencyAmount) (metadata : List (String × String))
    (h : (m.process_payment now voucher_id channel_id from_participant
      to_participant amount metadata).1.success = false) :
    (m.process_payment now voucher_id channel_id from_participant
      to_participant amount metadata).2 = m ∧
    (m.process_payment now voucher_id channel_id from_participant
      to_participant amount metadata).1.voucher = none := by
  unfold ChannelManager.process_payment at h ⊢
  rcases hg : m.getChannel channel_id with _ | channel
  · exact ⟨rfl, rfl⟩
  · rw [hg] at h
    simp only at h ⊢
    by_cases hs : (channel.processPayment now voucher_id from_participant
        to_participant amount metadata).success = true
    · rw [if_pos hs] at h
      simp at h
    · rw [if_neg hs]
      exact ⟨rfl, rfl⟩

/-- C2 witness: a rejected payment on an unknown channel. -/
theorem process_payment_rejection_atomic_witness :
    (emptyManager.process_payment 0 "v1" "nochannel" "A" "B" ⟨"USD", 1⟩ []).1.success
      = false ∧
    (emptyManager.process_payment 0 "v1" "nochannel" "A" "B" ⟨"USD", 1⟩ []).2
      = emptyManager ∧
    (emptyManager.process_payment 0 "v1" "nochannel" "A" "B" ⟨"USD", 1⟩ []).1.voucher
      = none :=
  ⟨rfl,
   (process_payment_rejection_atomic emptyManager 0 "v1" "nochannel" "A" "B"
     ⟨"USD", 1⟩ [] rfl).1,
   (process_payment_rejection_atomic emptyManager 0 "v1" "nochannel" "A" "B"
     ⟨"USD", 1⟩ [] rfl).2⟩

/-- C4: every successful payment advances the channel sequence number by
exactly one and mints its voucher with nonce equal to the new sequence number;
consequently the voucher nonces of any run starting from a fresh channel
(sequence number 0, as open_channel creates) are exactly 1, 2, 3, ... . -/
theorem monotonic_nonce :
    (∀ (c : PaymentChannel) (now : ℚ)
        (voucher_id from_participant to_participant : String)
        (amount : PaymentCurrencyAmount) (metadata : List (String × String)),
      (c.processPayment now voucher_id from_participant to_participant amount
        metadata).success = true →
      (c.processPayment now voucher_id from_participant to_participant amount
        metadata).channel.sequence_number = c.sequence_number + 1 ∧
      ∃ v, (c.processPayment now voucher_id from_participant to_participant amount
        metadata).voucher = some v ∧ v.nonce = c.sequence_number + 1) ∧
    (∀ (c : PaymentChannel) (events : List PaymentRequestEvent),
      c.sequence_number = 0 →
      ((runPayments c events).2.map fun v => v.nonce)
        = List.range' 1 (runPayments c events).2.length) :=
  ⟨fun c now vid fp tp a md h => (processPayment_step c now vid fp tp a md).2 h,
   fun c events h0 => by
    rw [runPayments_nonces events c, h0]⟩

/-- C4 witness: a concrete successful payment and a concrete two-payment run
with nonces 1, 2. -/
theorem monotonic_nonce_witness :
    (testChannel.processPayment 0 "v1" "A" "B" ⟨"USD", 10⟩ []).success = true ∧
    (testChannel.processPayment 0 "v1" "A" "B" ⟨"USD", 10⟩ []).channel.sequence_number
      = testChannel.sequence_number + 1 ∧
    (∃ v, (testChannel.processPayment 0 "v1" "A" "B" ⟨"USD", 10⟩ []).voucher = some v ∧
      v.nonce = testChannel.sequence_number + 1) ∧
    ((runPayments testChannel [⟨0, "v1", "A", "B", ⟨"USD", 10⟩⟩,
        ⟨1, "v2", "A", "B", ⟨"USD", 5⟩⟩]).2.map fun v => v.nonce)
      = List.range' 1 (runPayments testChannel [⟨0, "v1", "A", "B", ⟨"USD", 10⟩⟩,
        ⟨1, "v2", "A", "B", ⟨"USD", 5⟩⟩]).2.length :=
  ⟨rfl,
   (monotonic_nonce.1 testChannel 0 "v1" "A" "B" ⟨"USD", 10⟩ [] rfl).1,
   (monotonic_nonce.1 testChannel 0 "v1" "A" "B" ⟨"USD", 10⟩ [] rfl).2,
   monotonic_nonce.2 testChannel _ rfl⟩

/-- C7: the source sets every voucher's cumulative_amount to the amount of the
single payment being processed (annotated in the source as simplified), so
after two successful 5 USD payments from A to B the second voucher carries
cumulative_amount 5 and not the documented payee running total 10. -/
theorem voucher_cumulative_amount_bug :
    ((runPayments testChannel [⟨0, "v1", "A", "B", ⟨"USD", 5⟩⟩,
        ⟨1, "v2", "A", "B", ⟨"USD", 5⟩⟩]).2.map fun v => v.cumulative_amount.value)
      = [5, 5] ∧ (5 : ℚ) ≠ 5 + 5 := by
  constructor
  · simp [runPayments, PaymentChannel.processPayment,
      PaymentChannel.can_process_payment, testChannel, participantA, participantB,
      testPolicy, PaymentChannel.get_participant, PaymentChannel.is_expired,
      updateBalanceFirst, calculateStateHash, signVoucher, List.find?]
    norm_num
  · norm_num

/-- validateFinalBalances holds exactly when the id sets agree and the total
matches the capacity within 0.001. -/
theorem validateFinalBalances_iff (c : PaymentChannel)
    (fb : List (String × PaymentCurrencyAmount)) :
    validateFinalBalances c fb = true ↔
      (setEqStr (c.participants.map fun p => p.participant_id) (fb.map Prod.fst) = true ∧
       |(fb.map fun kv => kv.2.value).sum - c.total_capacity.value| < 1/1000) := by
  unfold validateFinalBalances
  by_cases hs : setEqStr (c.participants.map fun p => p.participant_id)
      (fb.map Prod.fst) = true
  · simp [hs]
  · simp [hs]

/-- C3: for a channel in state ACTIVE or CLOSING, close_channel succeeds
exactly when the proposed final balance keys equal the participant id set and
their total matches total_capacity within 0.001; a failed close leaves the
manager unchanged; a successful close records the settlement information and
removes the channel (appending its id to history) exactly when force_close is
set, otherwise leaving it stored in state CLOSING. -/
theorem close_channel_validity
    (m : ChannelManager) (now : ℚ) (request : ChannelCloseRequest)
    (c : PaymentChannel)
    (hc : m.getChannel request.channel_id = some c)
    (hstate : c.state = ChannelState.active ∨ c.state = ChannelState.closing) :
    ((m.close_channel now request).1.success = true ↔
      (setEqStr (c.participants.map fun p => p.participant_id)
          (request.final_balances.map Prod.fst) = true ∧
       |(request.final_balances.map fun kv => kv.2.value).sum
          - c.total_capacity.value| < 1/1000)) ∧
    ((m.close_channel now request).1.success = false →
      (m.close_channel now request).2 = m) ∧
    ((m.close_channel now request).1.success = true →
      (m.close_channel now request).1.settlement = some
        { final_balances := request.final_balances
          closed_by := request.requesting_participant
          close_reason := request.reason
          closure_time := now } ∧
      (request.force_close = true →
        (m.close_channel now request).2.getChannel request.channel_id = none ∧
        (m.close_channel now request).2.channel_history
          = m.channel_history ++ [request.channel_id]) ∧
      (request.force_close = false →
        (m.close_channel now request).2.getChannel request.channel_id = some
          { c with
            state := ChannelState.closing
            settlement_info := some
              { final_balances := request.final_balances
                closed_by := request.requesting_participant
                close_reason := request.reason
                closure_time := now } } ∧
        (m.close_channel now request).2.channel_history = m.channel_history)) := by
  have hstate2 : ¬ (c.state ≠ ChannelState.active ∧ c.state ≠ ChannelState.closing) := by
    rcases hstate with h | h <;> simp [h]
  unfold ChannelManager.close_channel
  rw [hc]
  simp only
  rw [if_neg hstate2]
  by_cases hv : validateFinalBalances c request.final_balances = true
  · rw [if_neg (by simp [hv])]
    rcases hf : request.force_close with _ | _
    · simp only [Bool.false_eq_true, if_false]
      refine ⟨?_, ?_, ?_⟩
      · simpa using (validateFinalBalances_iff c request.final_balances).mp hv
      · intro habs; simp at habs
      · intro _
        exact ⟨trivial, fun habs => habs.elim, fun _ =>
          ⟨getChannel_setChannel_self m request.channel_id _ (by simp [hc]), rfl⟩⟩
    · simp only [if_true]
      refine ⟨?_, ?_, ?_⟩
      · simpa using (validateFinalBalances_iff c request.final_balances).mp hv
      · intro habs; simp at habs
      · intro _
        exact ⟨trivial, fun _ =>
          ⟨getChannel_removeChannel_self _ request.channel_id, trivial⟩,
          fun habs => by simp at habs⟩
  · rw [if_pos (by simp [hv])]
    refine ⟨?_, fun _ => rfl, ?_⟩
    · constructor
      · intro habs; simp at habs
      · intro hr
        exact absurd ((validateFinalBalances_iff c request.final_balances).mpr hr) hv
    · intro habs; simp at habs

/-- A manager holding the active test channel. -/
def closeManager : ChannelManager :=
  { manager_id := "mgr", agent_did := "did:agent",
    active_channels := [("ch1", testChannel)] }

/-- A cooperative close request with matching final balances 40 and 10 USD. -/
def closeRequest : ChannelCloseRequest :=
  { channel_id := "ch1"
    requesting_participant := "A"
    final_balances := [("A", ⟨"USD", 40⟩), ("B", ⟨"USD", 10⟩)]
    signature := "sig" }

/-- C3 witness: a concrete valid close request on an ACTIVE channel succeeds. -/
theorem close_channel_validity_witness :
    closeManager.getChannel "ch1" = some testChannel ∧
    testChannel.state = ChannelState.active ∧
    (closeManager.close_channel 0 closeRequest).1.success = true :=
  ⟨rfl, rfl,
   (close_channel_validity closeManager 0 closeRequest testChannel rfl
       (Or.inl rfl)).1.mpr
     ⟨by decide, by
       simp [closeRequest, testChannel]
       norm_num⟩⟩

/-- A flat test rate of 1 USD. -/
def testRate : PaymentRate :=
  { rate_type := .flat_rate, rate_amount := ⟨"USD", 1⟩, unit_description := "call" }

/-- A permissive streaming test policy. -/
def testStreamPolicy : StreamingPaymentPolicy :=
  { auto_pause_threshold := ⟨"USD", 100⟩, max_cumulative_amount := ⟨"USD", 1000⟩ }

/-- A streaming session already in the terminal COMPLETED status. -/
def completedSession : StreamingPaymentSession :=
  { stream_id := "s1", channel_id := "ch1", payer_id := "A", payee_id := "B",
    service_description := "svc", rate := testRate, policy := testStreamPolicy,
    status := .completed, start_time := 0, cumulative_amount := ⟨"USD", 0⟩ }

/-- C8 (amended): the streaming lifecycle methods behave as follows on every
session: add_voucher never changes the status (in particular a session created
INITIALIZING does not become ACTIVE on its first voucher); pause_stream sets
PAUSED unconditionally, from any status including the terminal ones;
resume_stream moves PAUSED to ACTIVE and leaves every other status unchanged;
complete_stream sets COMPLETED and the end time unconditionally. -/
theorem streaming_status_transitions
    (s : StreamingPaymentSession) (units now : ℚ) (md : List (String × String))
    (reason stamp : String) :
    (s.add_voucher units now md).2.status = s.status ∧
    (s.pause_stream reason stamp).status = StreamStatus.paused ∧
    (s.resume_stream stamp).status =
      (if s.status = StreamStatus.paused then StreamStatus.active else s.status) ∧
    (s.complete_stream now).status = StreamStatus.completed ∧
    (s.complete_stream now).end_time = some now := by
  refine ⟨rfl, rfl, ?_, rfl, rfl⟩
  unfold StreamingPaymentSession.resume_stream
  by_cases h : s.status = StreamStatus.paused
  · simp [h]
  · simp [h]

/-- C8 counterexample: pause_stream moves a COMPLETED session to PAUSED, so
the terminal status COMPLETED can be left, contradicting the claimed
lifecycle. -/
theorem streaming_status_transitions_counterexample :
    completedSession.status = StreamStatus.completed ∧
    (completedSession.pause_stream "threshold" "t1").status = StreamStatus.paused ∧
    StreamStatus.paused ≠ StreamStatus.completed :=
  ⟨rfl, rfl, by decide⟩

/-- Clamped tier occupancy below an upper bound M (infinity when absent),
above a lower bound m: the helper both tier formulas are built from. -/
def tierClamp (total m : ℚ) (M : Option ℚ) : ℚ :=
  max 0 ((match M with | none => total | some MM => min total MM) - m)

/-- The code formula for one tier is the clamped occupancy difference. -/
theorem tierClamp_code_eq (total m : ℚ) (M : Option ℚ) :
    max 0 ((match M with | none => total | some MM => min total MM) - m)
      = tierClamp total m M := rfl

/-- The clamped occupancy is monotone in the cumulative total. -/
theorem tierClamp_mono (o n m : ℚ) (M : Option ℚ) (h : o ≤ n) :
    tierClamp o m M ≤ tierClamp n m M := by
  cases M with
  | none =>
    unfold tierClamp
    simp only
    rcases le_total 0 (o - m) with h1 | h1 <;> rcases le_total 0 (n - m) with h2 | h2 <;>
      simp [max_def] <;> split_ifs <;> linarith
  | some MM =>
    unfold tierClamp
    simp only [min_def, max_def]
    split_ifs <;> linarith

/-- The difference of clamped occupancies equals the marginal overlap of the
consumed increment with the tier band. -/
theorem tierClamp_diff (o n m : ℚ) (M : Option ℚ) (h : o ≤ n) :
    tierClamp n m M - tierClamp o m M
      = max 0 ((match M with | none => n | some MM => min n MM) - max o m) := by
  cases M with
  | none =>
    unfold tierClamp
    simp only [min_def, max_def]
    split_ifs <;> linarith
  | some MM =>
    unfold tierClamp
    simp only [min_def, max_def]
    split_ifs <;> linarith

/-- Marginal tiered charge as the specification words it: for each tier band,
the units of the consumed increment that fall inside the band are charged at
the rate of that band, and the per-band charges are summed. -/
def specMarginalTieredCharge (s : StreamingPaymentSession)
    (tiers : List TierThreshold) (units_consumed : ℚ) : ℚ :=
  (tiers.map fun tier =>
    (tier.rate_per_unit.getD s.rate.rate_amount.value) *
      max 0 ((match tier.max_units with
        | none => s.cumulative_units + units_consumed
        | some M => min (s.cumulative_units + units_consumed) M)
        - max s.cumulative_units (tier.min_units.getD 0))).sum

/-- C5: with TIERED_RATE and a nonempty tier list, calculate_next_payment
charges exactly the marginal units of the increment falling in each band at
that band's rate, summed over bands (and keeps the rate currency). -/
theorem tiered_billing_marginal
    (s : StreamingPaymentSession) (units_consumed : ℚ)
    (hu : 0 ≤ units_consumed)
    (ht : s.rate.rate_type = PaymentRateType.tiered_rate)
    (tiers : List TierThreshold)
    (htiers : s.rate.tier_thresholds = some tiers)
    (hne : tiers ≠ []) :
    (s.calculate_next_payment units_consumed).value
      = specMarginalTieredCharge s tiers units_consumed ∧
    (s.calculate_next_payment units_consumed).currency
      = s.rate.rate_amount.currency := by
  have ho : s.cumulative_units ≤ s.cumulative_units + units_consumed := by linarith
  have hempty : tiers.isEmpty = false := by
    cases tiers with
    | nil => exact absurd rfl hne
    | cons t ts => rfl
  unfold StreamingPaymentSession.calculate_next_payment
  rw [ht]
  dsimp only
  unfold StreamingPaymentSession.calculate_tiered_payment
  rw [htiers]
  dsimp only
  rw [hempty]
  simp only [Bool.false_eq_true, if_false]
  refine ⟨?_, trivial⟩
  unfold specMarginalTieredCharge
  congr 1
  apply List.map_congr_left
  intro tier _
  dsimp only
  rw [tierClamp_code_eq, tierClamp_code_eq]
  have hdiff := tierClamp_diff s.cumulative_units
    (s.cumulative_units + units_consumed) (tier.min_units.getD 0) tier.max_units ho
  have hnn : 0 ≤ tierClamp (s.cumulative_units + units_consumed)
      (tier.min_units.getD 0) tier.max_units
      - tierClamp s.cumulative_units (tier.min_units.getD 0) tier.max_units := by
    have := tierClamp_mono s.cumulative_units (s.cumulative_units + units_consumed)
      (tier.min_units.getD 0) tier.max_units ho
    linarith
  by_cases hpos : tierClamp (s.cumulative_units + units_consumed)
      (tier.min_units.getD 0) tier.max_units
      - tierClamp s.cumulative_units (tier.min_units.getD 0) tier.max_units > 0
  · rw [if_pos hpos, ← hdiff]
    ring
  · rw [if_neg hpos, ← hdiff]
    have hzero : tierClamp (s.cumulative_units + units_consumed)
        (tier.min_units.getD 0) tier.max_units
        - tierClamp s.cumulative_units (tier.min_units.getD 0) tier.max_units = 0 := by
      linarith
    rw [hzero]
    ring

/-- The tiers of the specification example: 0 to 100 units at 0.01 per unit,
beyond 100 units at 0.005 per unit. -/
def exampleTiers : List TierThreshold :=
  [{ min_units := some 0, max_units := some 100, rate_per_unit := some (1/100) },
   { min_units := some 100, max_units := none, rate_per_unit := some (1/200) }]

/-- A TIERED_RATE streaming rate with the example tiers. -/
def tieredRate : PaymentRate :=
  { rate_type := .tiered_rate, rate_amount := ⟨"USD", 1/100⟩,
    unit_description := "token", tier_thresholds := some exampleTiers }

/-- An active tiered session that has already consumed 90 units. -/
def tieredSession : StreamingPaymentSession :=
  { stream_id := "s2", channel_id := "ch1", payer_id := "A", payee_id := "B",
    service_description := "tokens", rate := tieredRate, policy := testStreamPolicy,
    status := .active, start_time := 0, cumulative_amount := ⟨"USD", 9/10⟩,
    cumulative_units := 90 }

/-- C5 witness: jumping from 90 to 120 cumulative units under the example
tiers charges 10 marginal units at 0.01 plus 20 at 0.005, giving 0.20 (and
matches the marginal specification formula). -/
theorem tiered_billing_marginal_witness :
    (0 : ℚ) ≤ 30 ∧
    tieredSession.rate.rate_type = PaymentRateType.tiered_rate ∧
    tieredSession.rate.tier_thresholds = some exampleTiers ∧
    exampleTiers ≠ [] ∧
    (tieredSession.calculate_next_payment 30).value
      = specMarginalTieredCharge tieredSession exampleTiers 30 ∧
    (tieredSession.calculate_next_payment 30).value = 1/5 :=
  ⟨by norm_num, rfl, rfl, by decide,
   (tiered_billing_marginal tieredSession 30 (by norm_num) rfl exampleTiers rfl
     (by decide)).1,
   by
     simp [StreamingPaymentSession.calculate_next_payment,
       StreamingPaymentSession.calculate_tiered_payment, tieredSession, tieredRate,
       exampleTiers, min_def, max_def]
     norm_num⟩

/-- Permuted lists agree on all. -/
theorem perm_all_eq {α : Type} {l₁ l₂ : List α} (h : l₁.Perm l₂) (p : α → Bool) :
    l₁.all p = l₂.all p := by
  apply Bool.eq_iff_iff.mpr
  simp only [List.all_eq_true]
  exact ⟨fun hh x hx => hh x (h.mem_iff.mpr hx),
         fun hh x hx => hh x (h.mem_iff.mp hx)⟩

/-- Permuted lists agree on any. -/
theorem perm_any_eq {α : Type} {l₁ l₂ : List α} (h : l₁.Perm l₂) (p : α → Bool) :
    l₁.any p = l₂.any p := by
  apply Bool.eq_iff_iff.mpr
  simp only [List.any_eq_true]
  exact ⟨fun ⟨x, hx, hp⟩ => ⟨x, h.mem_iff.mp hx, hp⟩,
         fun ⟨x, hx, hp⟩ => ⟨x, h.mem_iff.mpr hx, hp⟩⟩

/-- all over a mapped list, stated over the original list. -/
theorem all_map_eq {α β : Type} (f : α → β) (p : β → Bool) :
    ∀ l : List α, (l.map f).all p = l.all fun x => p (f x) := by
  intro l
  induction l with
  | nil => rfl
  | cons x xs ih => simp [ih]

/-- any over a mapped list, stated over the original list. -/
theorem any_map_eq {α β : Type} (f : α → β) (p : β → Bool) :
    ∀ l : List α, (l.map f).any p = l.any fun x => p (f x) := by
  intro l
  induction l with
  | nil => rfl
  | cons x xs ih => simp [ih]

/-- all over a filtered list, stated over the whole list. -/
theorem all_filter_eq {α : Type} (q g : α → Bool) :
    ∀ l : List α, (l.filter q).all g = l.all fun x => !q x || g x := by
  intro l
  induction l with
  | nil => rfl
  | cons x xs ih =>
    cases hx : q x with
    | true => simp [List.filter_cons, hx, ih]
    | false => simp [List.filter_cons, hx, ih]

/-- any over a filtered list, stated over the whole list. -/
theorem any_filter_eq {α : Type} (q g : α → Bool) :
    ∀ l : List α, (l.filter q).any g = l.any fun x => q x && g x := by
  intro l
  induction l with
  | nil => rfl
  | cons x xs ih =>
    cases hx : q x with
    | true => simp [List.filter_cons, hx, ih]
    | false => simp [List.filter_cons, hx, ih]

/-- In ALL mode, evaluate_transaction allows exactly when every enabled rule
passes (sorting is a permutation, so the aggregate ignores the order). -/
theorem evaluate_transaction_all_eq (rm : String → String → Bool)
    (rs : SpendingRuleSet) (ctx : TransactionContext)
    (hmode : rs.evaluation_mode = EvaluationMode.all) :
    (rs.evaluate_transaction rm ctx).allowed
      = rs.rules.all fun r => !r.core.enabled || r.evaluate rm ctx := by
  by_cases hrs : rs.rules = []
  · simp [SpendingRuleSet.evaluate_transaction, hrs]
  · have hempty : rs.rules.isEmpty = false := by
      cases hl : rs.rules with
      | nil => exact absurd hl hrs
      | cons a l => rfl
    unfold SpendingRuleSet.evaluate_transaction
    rw [hempty]
    simp only [Bool.false_eq_true, if_false]
    rw [hmode]
    dsimp only
    rw [all_map_eq, all_filter_eq]
    exact perm_all_eq (List.perm_insertionSort _ _) _

/-- In ANY mode with a nonempty rule list, evaluate_transaction allows exactly
when some enabled rule passes. -/
theorem evaluate_transaction_any_eq (rm : String → String → Bool)
    (rs : SpendingRuleSet) (ctx : TransactionContext)
    (hmode : rs.evaluation_mode = EvaluationMode.any)
    (hrs : rs.rules ≠ []) :
    (rs.evaluate_transaction rm ctx).allowed
      = rs.rules.any fun r => r.core.enabled && r.evaluate rm ctx := by
  have hempty : rs.rules.isEmpty = false := by
    cases hl : rs.rules with
    | nil => exact absurd hl hrs
    | cons a l => rfl
  unfold SpendingRuleSet.evaluate_transaction
  rw [hempty]
  simp only [Bool.false_eq_true, if_false]
  rw [hmode]
  dsimp only
  rw [any_map_eq, any_filter_eq]
  exact perm_any_eq (List.perm_insertionSort _ _) _

/-- A regex oracle that never matches (no rule below uses regex matching). -/
def noRegex : String → String → Bool := fun _ _ => false

/-- A transaction context carrying only a timestamp. -/
def ctx0 : TransactionContext := { timestamp := ⟨0, 12, 1⟩ }

/-- A transaction context naming merchant m1. -/
def ctxM1 : TransactionContext := { merchant_id := some "m1", timestamp := ⟨0, 12, 1⟩ }

/-- An enabled allow-list merchant rule for m1. -/
def ruleAllowM1 : SpendingRule :=
  { core := { rule_id := "r-allow" }
    body := .merchantC ["m1"] .allow .exact }

/-- An enabled deny-list merchant rule for m1. -/
def ruleDenyM1 : SpendingRule :=
  { core := { rule_id := "r-deny" }
    body := .merchantC ["m1"] .deny .exact }

/-- The allow and deny rules aggregated in ALL mode. -/
def rsAllPF : SpendingRuleSet :=
  { rules := [ruleAllowM1, ruleDenyM1], evaluation_mode := .all }

/-- The allow and deny rules aggregated in ANY mode. -/
def rsAnyPF : SpendingRuleSet :=
  { rules := [ruleAllowM1, ruleDenyM1], evaluation_mode := .any }

/-- An empty rule set in ANY mode. -/
def rsAnyEmpty : SpendingRuleSet := { rules := [], evaluation_mode := .any }

/-- An empty rule set in ALL mode. -/
def rsEmptyAll : SpendingRuleSet := { evaluation_mode := .all }

/-- C6 (amended): evaluate_transaction aggregates exactly as claimed in ALL
mode (every enabled rule passes, vacuously true with no rules), and in ANY
mode whenever the rule list is nonempty (some enabled rule passes); an EMPTY
rule list however short-circuits to allowed regardless of the mode, so in ANY
mode with no rules the call allows although no enabled rule passes. -/
theorem rule_set_aggregation (rm : String → String → Bool)
    (rs : SpendingRuleSet) (ctx : TransactionContext) :
    (rs.rules = [] → (rs.evaluate_transaction rm ctx).allowed = true) ∧
    (rs.evaluation_mode = EvaluationMode.all →
      (rs.evaluate_transaction rm ctx).allowed
        = rs.rules.all fun r => !r.core.enabled || r.evaluate rm ctx) ∧
    (rs.evaluation_mode = EvaluationMode.any → rs.rules ≠ [] →
      (rs.evaluate_transaction rm ctx).allowed
        = rs.rules.any fun r => r.core.enabled && r.evaluate rm ctx) := by
  refine ⟨?_, ?_, ?_⟩
  · intro hrs
    simp [SpendingRuleSet.evaluate_transaction, hrs]
  · intro hmode
    exact evaluate_transaction_all_eq rm rs ctx hmode
  · intro hmode hrs
    exact evaluate_transaction_any_eq rm rs ctx hmode hrs

/-- C6 witness: with one passing and one failing enabled rule, ALL mode denies
and ANY mode allows, matching the aggregation formulas. -/
theorem rule_set_aggregation_witness :
    rsAllPF.evaluation_mode = EvaluationMode.all ∧
    (rsAllPF.evaluate_transaction noRegex ctxM1).allowed
      = (rsAllPF.rules.all fun r => !r.core.enabled || r.evaluate noRegex ctxM1) ∧
    (rsAllPF.evaluate_transaction noRegex ctxM1).allowed = false ∧
    rsAnyPF.evaluation_mode = EvaluationMode.any ∧
    rsAnyPF.rules ≠ [] ∧
    (rsAnyPF.evaluate_transaction noRegex ctxM1).allowed
      = (rsAnyPF.rules.any fun r => r.core.enabled && r.evaluate noRegex ctxM1) ∧
    (rsAnyPF.evaluate_transaction noRegex ctxM1).allowed = true :=
  ⟨rfl, (rule_set_aggregation noRegex rsAllPF ctxM1).2.1 rfl, by decide,
   rfl, by decide, (rule_set_aggregation noRegex rsAnyPF ctxM1).2.2 rfl (by decide),
   by decide⟩

/-- C6 counterexample: a rule set with an EMPTY rule list in ANY mode allows
the transaction although no enabled rule passes, contradicting the claimed
equivalence for ANY mode over all rule sets. -/
theorem rule_set_aggregation_counterexample :
    rsAnyEmpty.evaluation_mode = EvaluationMode.any ∧
    (rsAnyEmpty.evaluate_transaction noRegex ctx0).allowed = true ∧
    (rsAnyEmpty.rules.any fun r => r.core.enabled && r.evaluate noRegex ctx0) = false :=
  ⟨rfl, rfl, rfl⟩

/-- C9 (amended): add_rule appends the rule unconditionally and performs no
conflict detection, so overlapping constraints are accepted silently; a
merchant listed in an enabled exact-match deny rule then simply loses every
ALL-mode evaluation, with no ConflictDetected-style warning anywhere. -/
theorem add_rule_no_conflict_detection (rm : String → String → Bool)
    (rs : SpendingRuleSet) (rule denyRule : SpendingRule)
    (ids : List String) (m : String) (ctx : TransactionContext)
    (hmode : rs.evaluation_mode = EvaluationMode.all)
    (hmem : denyRule ∈ rs.rules)
    (hen : denyRule.core.enabled = true)
    (hbody : denyRule.body = SpendingRuleBody.merchantC ids ConstraintType.deny
      MerchantMatchType.exact)
    (hm : m ∈ ids)
    (hctx : ctx.merchant_id = some m)
    (hne : m ≠ "") :
    (rs.add_rule rule).rules = rs.rules ++ [rule] ∧
    (rs.evaluate_transaction rm ctx).allowed = false := by
  refine ⟨rfl, ?_⟩
  have heval : denyRule.evaluate rm ctx = false := by
    unfold SpendingRule.evaluate
    rw [hbody]
    dsimp only
    rw [hctx]
    dsimp only
    have hbeq : (m == "") = false := by simpa using hne
    rw [hbeq]
    simp only [Bool.false_eq_true, if_false]
    have hmatch : isMerchantMatch rm ids MerchantMatchType.exact m = true := by
      unfold isMerchantMatch
      rw [List.any_eq_true]
      exact ⟨m, hm, by simp⟩
    rw [hmatch]
    rfl
  rw [evaluate_transaction_all_eq rm rs ctx hmode]
  cases hall : rs.rules.all fun r => !r.core.enabled || r.evaluate rm ctx with
  | false => rfl
  | true =>
    exfalso
    have := List.all_eq_true.mp hall denyRule hmem
    rw [hen, heval] at this
    simp at this

/-- C9 witness: the concrete allow and deny pair for m1 under ALL mode. -/
theorem add_rule_no_conflict_detection_witness :
    rsAllPF.evaluation_mode = EvaluationMode.all ∧
    ruleDenyM1 ∈ rsAllPF.rules ∧
    (rsAllPF.add_rule ruleAllowM1).rules = rsAllPF.rules ++ [ruleAllowM1] ∧
    (rsAllPF.evaluate_transaction noRegex ctxM1).allowed = false :=
  ⟨rfl, by decide,
   (add_rule_no_conflict_detection noRegex rsAllPF ruleAllowM1 ruleDenyM1 ["m1"]
     "m1" ctxM1 rfl (by decide) rfl rfl (by decide) rfl (by decide)).1,
   (add_rule_no_conflict_detection noRegex rsAllPF ruleAllowM1 ruleDenyM1 ["m1"]
     "m1" ctxM1 rfl (by decide) rfl rfl (by decide) rfl (by decide)).2⟩

/-- C9 counterexample: adding an allow rule and a deny rule for the same
merchant via add_rule yields a rule set holding exactly both rules, with no
conflict surfaced anywhere; evaluating merchant m1 silently records the allow
rule as passed and the deny rule as failed and denies in ALL mode. -/
theorem add_rule_conflict_counterexample :
    ((rsEmptyAll.add_rule ruleAllowM1).add_rule ruleDenyM1).rules
      = [ruleAllowM1, ruleDenyM1] ∧
    (((rsEmptyAll.add_rule ruleAllowM1).add_rule ruleDenyM1).evaluate_transaction
      noRegex ctxM1).rule_results
      = [{ rule_id := "r-allow", passed := true }, { rule_id := "r-deny", passed := false }] ∧
    (((rsEmptyAll.add_rule ruleAllowM1).add_rule ruleDenyM1).evaluate_transaction
      noRegex ctxM1).allowed = false :=
  ⟨rfl, by decide, by decide⟩

/-- An intent for action purchase carrying no max_amount. -/
def unboundedIntent : SessionIntent :=
  { intent_id := "i1", action := "purchase", valid_until := 100 }

/-- A test session credential. -/
def testCredential : SessionCredential := { credential_id := "c1", public_key := "pk" }

/-- An ACTIVE session holding only the unbounded purchase intent. -/
def testSession : SessionAuthorization :=
  { session_id := "sess1", agent_did := "did:agent", user_wallet_address := "w",
    auth_type := .ephemeral_key, credential := testCredential,
    intents := [unboundedIntent], session_expiry := 100 }

/-- C10: on a valid session holding a non-expired intent for the requested
action with max_amount absent, has_intent_for_action answers true for every
queried amount, of any currency and value: no amount or currency check is
applied when the intent carries no limit. -/
theorem unbounded_intent_authorizes_any_amount
    (s : SessionAuthorization) (now : ℚ) (action : String) (intent : SessionIntent)
    (hvalid : s.is_valid now = true)
    (hmem : intent ∈ s.intents)
    (haction : intent.action = action)
    (hexp : now ≤ intent.valid_until)
    (hmax : intent.max_amount = none) :
    ∀ amount : Option PaymentCurrencyAmount,
      s.has_intent_for_action action amount now = true := by
  intro amount
  unfold SessionAuthorization.has_intent_for_action
  rw [if_neg (by simp [hvalid])]
  rw [List.any_eq_true]
  refine ⟨intent, hmem, ?_⟩
  rw [if_neg (by simp [haction])]
  rw [if_neg (by simp; linarith)]
  rw [hmax]
  cases amount <;> rfl

/-- C10 witness: the concrete unbounded purchase intent authorizes an absurd
amount in an unrelated currency. -/
theorem unbounded_intent_authorizes_any_amount_witness :
    testSession.is_valid 0 = true ∧
    unboundedIntent ∈ testSession.intents ∧
    unboundedIntent.max_amount = none ∧
    testSession.has_intent_for_action "purchase"
      (some ⟨"ZZZ", 999999999⟩) 0 = true :=
  ⟨rfl, by decide, rfl,
   unbounded_intent_authorizes_any_amount testSession 0 "purchase" unboundedIntent
     rfl (by decide) rfl (by norm_num [unboundedIntent]) rfl
     (some ⟨"ZZZ", 999999999⟩)⟩

end AP2
